import Mathlib

/-!
# Verification of the RevenueEdge identity-resolution and join pipeline

Shallow embedding of the core cleaning / aggregation / join logic of the
RevenueEdge repository (scripts `02_clean_goodreads.py`,
`03_clean_bookcrossing.py`, `04_create_database.py`), together with proofs
about the embedded definitions.

Modelling conventions:
* Python strings subjected to character-level operations (strip, upper,
  regex character-class substitution) are modelled as lists of natural-number
  codepoints (`List Nat`); `codes` converts a Lean string literal to this
  representation for concrete inputs.
* Missing values (`NaN` / SQL `NULL` / Python `None`) are modelled as
  `Option`.  Numeric data parsed from the CSVs is modelled exactly with `ℚ`
  (ratings are finite decimals, scores integers); only the SQL
  `LOG` of the engagement score needs `ℝ`.
* pandas boolean masks evaluate `NaN` comparisons to `False`; SQL `CASE WHEN`
  treats a `NULL` comparison as not-satisfied; both are reflected in the
  `Option` matches below.
-/

/-- Codepoints of a string literal, used to write concrete inputs for the
codepoint-level model of Python strings. -/
def codes (s : String) : List Nat := s.toList.map Char.toNat

/-- Python `\s` whitespace class (ASCII part): space, tab, LF, CR, VT, FF. -/
def isPySpace (c : Nat) : Bool :=
  c = 32 || c = 9 || c = 10 || c = 13 || c = 11 || c = 12

/-- Character class `[A-Z0-9]` (codepoints 65–90 and 48–57): the characters
kept by `re.sub(r'[^A-Z0-9]', '', s)`. -/
def isUpperAlnum (c : Nat) : Bool :=
  (65 ≤ c && c ≤ 90) || (48 ≤ c && c ≤ 57)

/-- ASCII uppercasing of one codepoint, the effect of Python `str.upper()`
on the ASCII range: `a`–`z` (97–122) map down by 32, the rest unchanged. -/
def toUpperChar (c : Nat) : Nat :=
  if 97 ≤ c && c ≤ 122 then c - 32 else c

/-- Python `str.strip()`: remove leading and trailing whitespace. -/
def pyStrip (l : List Nat) : List Nat :=
  ((l.dropWhile isPySpace).reverse.dropWhile isPySpace).reverse

/-- `str.strip().upper()` as applied to the title/author fields. -/
def stripUpper (l : List Nat) : List Nat :=
  (pyStrip l).map toUpperChar

/-- `clean_isbn` from `02_clean_goodreads.py` (identical in
`03_clean_bookcrossing.py`): `None` for a missing value, otherwise strip
whitespace, uppercase, delete `[-\s]`, delete `[^A-Z0-9]`, and accept the
result only if its length is exactly 10 or exactly 13. -/
def clean_isbn (isbn : Option (List Nat)) : Option (List Nat) :=
  match isbn with
  | none => none
  | some l =>
    let isbn_str := stripUpper l
    let isbn_hyph := isbn_str.filter (fun c => !(c = 45 || isPySpace c))
    let isbn_clean := isbn_hyph.filter isUpperAlnum
    if isbn_clean.length = 10 ∨ isbn_clean.length = 13 then some isbn_clean
    else none

/-- First comma-delimited token: Python `s.split(',')[0]` (44 = `,`). -/
def firstCommaToken (l : List Nat) : List Nat :=
  l.takeWhile (fun c => c ≠ 44)

/-- `create_composite_key` from `02_clean_goodreads.py`, for a row whose
`ISBN` column already holds the `clean_isbn` result.  If the ISBN is present
it is the key; otherwise the stripped-uppercased title and author strings
are tested for non-emptiness, and if both are non-empty the key is
`COMP_` ++ (title restricted to `[A-Z0-9]`, first 30) ++ `_` ++
(first author segment restricted to `[A-Z0-9]`, first 20); else no key. -/
def create_composite_key (isbn title authors : Option (List Nat)) :
    Option (List Nat) :=
  match isbn with
  | some i => some i
  | none =>
    let t := stripUpper (title.getD [])
    let a := stripUpper (authors.getD [])
    if t ≠ [] ∧ a ≠ [] then
      some (codes "COMP_" ++ (t.filter isUpperAlnum).take 30 ++
        [95] ++ ((firstCommaToken a).filter isUpperAlnum).take 20)
    else none

/-!
## Catalog Cleaner (`02_clean_goodreads.py`, lines 89–174)

`goodreads_clean` keeps rows with a non-null `book_key`, coerces
`average_rating` with `pd.to_numeric(errors='coerce')` (invalid parses become
`NaN`, i.e. `none`), and then applies the boolean mask
`(rating >= 0) & (rating <= 5)`; in pandas a comparison against `NaN` is
`False`, so the mask is `false` on `none`.
-/

/-- A catalog row at the point of the rating filter: its identity key and its
coerced `average_rating` column (`none` = `NaN`, the result of a failed
`pd.to_numeric` parse or a missing raw value). -/
structure CatalogRow where
  book_key : String
  average_rating : Option ℚ
  deriving DecidableEq, Repr

/-- The pandas mask `(average_rating >= 0) & (average_rating <= 5)`:
`NaN` compares `False` on both sides. -/
def ratingMask (r : Option ℚ) : Bool :=
  match r with
  | some q => decide ((0 : ℚ) ≤ q) && decide (q ≤ 5)
  | none => false

/-- Row selection `goodreads_clean[(avg >= 0) & (avg <= 5)]`
(lines 98–101): whole rows are kept or removed by the mask. -/
def filterByRating (rows : List CatalogRow) : List CatalogRow :=
  rows.filter (fun r => ratingMask r.average_rating)

/-- The drop of rows without a valid identity key (line 89):
`goodreads[goodreads['book_key'].notna()]`, stated over the key column. -/
def dropNullKeys (keys : List (Option (List Nat))) : List (List Nat) :=
  keys.filterMap id

/-!
## Publisher canonicalization table and flag keywords
(`02_clean_goodreads.py`, lines 134–166)
-/

/-- The `uk_publishers` synonym table of `standardize_publisher`, in source
order: canonical name paired with its list of variant substrings. -/
def uk_publishers : List (String × List String) :=
  [("PENGUIN", ["PENGUIN", "PENGUIN BOOKS", "PENGUIN UK", "PENGUIN RANDOM HOUSE"]),
   ("BLOOMSBURY", ["BLOOMSBURY", "BLOOMSBURY PUBLISHING"]),
   ("HARPERCOLLINS", ["HARPERCOLLINS", "HARPER COLLINS", "HARPER"]),
   ("MACMILLAN", ["MACMILLAN", "PAN MACMILLAN", "MACMILLAN UK"]),
   ("ORION", ["ORION", "ORION PUBLISHING"]),
   ("FABER", ["FABER", "FABER & FABER", "FABER AND FABER"]),
   ("RANDOM HOUSE", ["RANDOM HOUSE", "RANDOMHOUSE"])]

/-- The `uk_publisher_keywords` list used to set `is_uk_publisher`. -/
def uk_publisher_keywords : List String :=
  ["PENGUIN", "BLOOMSBURY", "HARPERCOLLINS", "MACMILLAN",
   "ORION", "FABER", "CANONGATE", "HACHETTE UK"]

/-- Whether the first list occurs at the head of the second. -/
def leadsWith : List Nat → List Nat → Bool
  | [], _ => true
  | _ :: _, [] => false
  | a :: as, b :: bs => a = b && leadsWith as bs

/-- Python's `in` on strings: whether `nd` occurs contiguously in the list. -/
def hasSub (nd : List Nat) : List Nat → Bool
  | [] => nd.isEmpty
  | c :: rest => leadsWith nd (c :: rest) || hasSub nd rest

/-- The `is_uk_publisher` lambda (lines 164–166): true iff some keyword is a
substring of the uppercased publisher name (codepoint model). -/
def is_uk_flag (publisher : List Nat) : Bool :=
  uk_publisher_keywords.any
    (fun k => hasSub (codes k) (publisher.map toUpperChar))

/-!
## Cohort-level rating aggregation (`03_clean_bookcrossing.py`, lines 179–192)

`ratings_with_users = bc_ratings_clean.merge(bc_users_clean[...], on='User-ID',
how='left')` attaches each rating event's actor attributes, leaving `NaN`
(`none`) where the actor is absent.  `groupby(['isbn_clean', 'age_group'])`
then groups with pandas' default `dropna=True`: rows whose group key contains
`NaN` are excluded from the grouping.  Group keys are modelled in order of
first appearance (pandas sorts them; output order is not at issue here) and
`User-ID` is a key of the users table, so the left merge is a first-match
lookup.
-/

/-- One row of `bc_ratings_clean`: cleaned ISBN, actor reference, score. -/
structure RatingRow where
  isbn : String
  userId : ℤ
  score : ℤ
  deriving DecidableEq, Repr

/-- One row of `bc_users_clean` as consumed by the merge: actor reference and
derived `age_group` (always a concrete string after user cleaning —
`categorize_age` maps a missing age to `"Unknown"`). -/
structure UserRow where
  userId : ℤ
  age_group : String
  deriving DecidableEq, Repr

/-- The left-merge lookup of a rating event's actor: `none` when the actor is
absent from the users table. -/
def lookupUser (users : List UserRow) (uid : ℤ) : Option String :=
  (users.find? (fun u => u.userId == uid)).map (fun u => u.age_group)

/-- `ratings_with_users`: each event paired with its (nullable) cohort label
from the left merge. -/
def ratingsWithUsers (ratings : List RatingRow) (users : List UserRow) :
    List (RatingRow × Option String) :=
  ratings.map (fun r => (r, lookupUser users r.userId))

/-- The distinct `(isbn_clean, age_group)` group keys of the
`groupby(['isbn_clean', 'age_group'])`: pandas drops keys containing `NaN`
(`dropna=True` default), so only events with a non-null cohort contribute. -/
def demoGroupKeys (ps : List (RatingRow × Option String)) :
    List (String × String) :=
  (ps.filterMap (fun p => p.2.map (fun g => (p.1.isbn, g)))).dedup

/-- Rows of one `(isbn, age_group)` group. -/
def demoGroup (ps : List (RatingRow × Option String)) (k : String × String) :
    List (RatingRow × Option String) :=
  ps.filter (fun p => decide (p.1.isbn = k.1) && decide (p.2 = some k.2))

/-- One row of `demographic_insights`. -/
structure DemographicRow where
  isbn : String
  age_group : String
  rating_avg : ℚ
  rating_count : ℕ
  deriving DecidableEq, Repr

/-- `demographic_insights` (lines 187–192): group `ratings_with_users` by
`(isbn_clean, age_group)`, take mean and count of `Book-Rating` per group,
and keep groups with `rating_count >= 5`. -/
def demographic_insights (ratings : List RatingRow) (users : List UserRow) :
    List DemographicRow :=
  let ps := ratingsWithUsers ratings users
  (demoGroupKeys ps).filterMap (fun k =>
    let grp := demoGroup ps k
    if 5 ≤ grp.length then
      some ⟨k.1, k.2, (grp.map (fun p => (p.1.score : ℚ))).sum / grp.length,
        grp.length⟩
    else none)

/-- The five rating events of the C6 counterexample: all by actor 99, who is
absent from the (empty) users table. -/
def orphanEvents : List RatingRow := List.replicate 5 ⟨"0316666343", 99, 8⟩

/-!
## Join & Scoring Engine (`04_create_database.py`, lines 24–183)

The loading block treats a missing `goodreads_cleaned.csv` as fatal
(`exit(1)`) but a missing `bc_ratings_aggregated.csv` only as a warning,
substituting an empty DataFrame.  The SQL query left-joins `books` to
`community_ratings` on `isbn` (a SQL `NULL` book isbn matches nothing),
restricts with `WHERE b.is_uk_publisher = 1 OR c.isbn IS NOT NULL`, and
computes `rating_gap`, `book_category` and `engagement_score`.  SQLite's
`LOG(X)` is the **base-10** logarithm and yields `NULL` off its domain
(`X ≤ 0`); the `ORDER BY engagement_score DESC` only permutes rows and is
not modelled (all statements below are row-level).  `engagement_score` is
real-valued, so it is modelled by `engagementScore` alongside the otherwise
computable `MasterRow`.
-/

/-- One row of the `books` table as consumed by the join. -/
structure BookRow where
  book_key : String
  isbn : Option String
  goodreads_rating : Option ℚ
  goodreads_review_count : ℤ
  is_uk_publisher : Bool
  deriving DecidableEq, Repr

/-- One row of the `community_ratings` table (aggregation output: the `isbn`
group key is never null, and `bc_rating_normalized = bc_rating_avg / 2`). -/
structure CommunityRow where
  isbn : String
  bc_rating_normalized : ℚ
  bc_rating_count : ℤ
  bc_rating_stddev : Option ℚ
  deriving DecidableEq, Repr

/-- The left-join match for a book: `ON b.isbn = c.isbn` — a `NULL` book
isbn satisfies no SQL equality, and `community_ratings.isbn` is unique, so
the match is a first-match lookup. -/
def findAgg (aggs : List CommunityRow) (i : Option String) :
    Option CommunityRow :=
  match i with
  | none => none
  | some s => aggs.find? (fun c => c.isbn == s)

/-- The `CASE` expression for `book_category`: a `NULL`
`bc_rating_normalized` fails every `WHEN` comparison, giving `'Average'`. -/
def bookCategory (norm : Option ℚ) (review_count : ℤ) : String :=
  match norm with
  | some v =>
    if 4 ≤ v ∧ review_count < 500 then "Hidden Gem"
    else if 4 ≤ v ∧ 500 ≤ review_count then "Popular Favorite"
    else if v < 3 then "Underperformer"
    else "Average"
  | none => "Average"

/-- SQLite `LOG(x)`: base-10 logarithm, `NULL` for `x ≤ 0`. -/
noncomputable def sqliteLog (x : ℝ) : Option ℝ :=
  if 0 < x then some (Real.logb 10 x) else none

/-- The `engagement_score` column,
`b.goodreads_rating * LOG(b.goodreads_review_count + 1)`: SQL `NULL`
propagates through the product. -/
noncomputable def engagementScore (rating : Option ℚ) (review_count : ℤ) :
    Option ℝ :=
  match rating, sqliteLog ((review_count : ℝ) + 1) with
  | some r, some l => some ((r : ℝ) * l)
  | _, _ => none

/-- Modelled from the spec: the engagement-score formula as the spec words
it — catalog rating × natural logarithm of (review count + 1), null iff the
rating is null.  Defined only to be compared with the source's
`engagementScore`, which uses SQLite's base-10 `LOG`. -/
noncomputable def engagementScoreSpecLn (rating : Option ℚ)
    (review_count : ℤ) : Option ℝ :=
  rating.map (fun r => (r : ℝ) * Real.log ((review_count : ℝ) + 1))

/-- The computable columns of one row of the joined `master_dataset`
(`engagement_score` is carried by `engagementColumn` beside it). -/
structure MasterRow where
  book_key : String
  goodreads_rating : Option ℚ
  goodreads_review_count : ℤ
  is_uk_publisher : Bool
  bc_rating : Option ℚ
  rating_gap : Option ℚ
  book_category : String
  deriving DecidableEq, Repr

/-- The SELECT list applied to one book and its (nullable) join partner. -/
def joinRow (aggs : List CommunityRow) (b : BookRow) : MasterRow :=
  let c := findAgg aggs b.isbn
  let norm := c.map (fun x => x.bc_rating_normalized)
  { book_key := b.book_key
    goodreads_rating := b.goodreads_rating
    goodreads_review_count := b.goodreads_review_count
    is_uk_publisher := b.is_uk_publisher
    bc_rating := norm
    rating_gap :=
      match norm, b.goodreads_rating with
      | some n, some g => some (n - g)
      | _, _ => none
    book_category := bookCategory norm b.goodreads_review_count }

/-- The `WHERE b.is_uk_publisher = 1 OR c.isbn IS NOT NULL` retention
filter, expressed on the book side (the join partner is unique). -/
def retained (aggs : List CommunityRow) (b : BookRow) : Bool :=
  b.is_uk_publisher || (findAgg aggs b.isbn).isSome

/-- The joined `master_dataset` rows (modulo the final ORDER BY). -/
def masterDataset (books : List BookRow) (aggs : List CommunityRow) :
    List MasterRow :=
  (books.filter (retained aggs)).map (joinRow aggs)

/-- The `engagement_score` column of `master_dataset`, row-aligned with
`masterDataset`. -/
noncomputable def engagementColumn (books : List BookRow)
    (aggs : List CommunityRow) : List (Option ℝ) :=
  (books.filter (retained aggs)).map
    (fun b => engagementScore b.goodreads_rating b.goodreads_review_count)

/-- The loading stage of `04_create_database.py` (lines 24–51) feeding the
join: a missing cleaned-catalog file exits the script, a missing aggregate
file is only warned about and replaced by an empty DataFrame. -/
def joinStage (catalog : Option (List BookRow))
    (aggs : Option (List CommunityRow)) : Except String (List MasterRow) :=
  match catalog with
  | none => Except.error "goodreads_cleaned.csv not found. Run script 02 first."
  | some books => Except.ok (masterDataset books (aggs.getD []))

/-- Decidable equality of `Except` results, so that the load-stage outcomes
can be evaluated on concrete inputs. -/
instance {ε α : Type} [DecidableEq ε] [DecidableEq α] :
    DecidableEq (Except ε α)
  | .ok a, .ok b =>
    if h : a = b then .isTrue (congrArg _ h)
    else .isFalse (fun hc => h (Except.ok.inj hc))
  | .error a, .error b =>
    if h : a = b then .isTrue (congrArg _ h)
    else .isFalse (fun hc => h (Except.error.inj hc))
  | .ok _, .error _ => .isFalse (fun hc => Except.noConfusion hc)
  | .error _, .ok _ => .isFalse (fun hc => Except.noConfusion hc)

/-!
## Helper lemmas about the codepoint-level cleaning functions
-/

/-- A character kept by `[A-Z0-9]` is not Python whitespace. -/
theorem upperAlnum_not_space {c : Nat} (h : isUpperAlnum c = true) :
    isPySpace c = false := by
  simp only [isUpperAlnum, Bool.or_eq_true, Bool.and_eq_true, decide_eq_true_eq] at h
  simp only [isPySpace, Bool.or_eq_false_iff, decide_eq_false_iff_not]
  omega

/-- A character kept by `[A-Z0-9]` is unchanged by ASCII uppercasing. -/
theorem upperAlnum_toUpper {c : Nat} (h : isUpperAlnum c = true) :
    toUpperChar c = c := by
  simp only [isUpperAlnum, Bool.or_eq_true, Bool.and_eq_true, decide_eq_true_eq] at h
  simp only [toUpperChar, Bool.and_eq_true, decide_eq_true_eq, ite_eq_right_iff, and_imp]
  omega

/-- A character kept by `[A-Z0-9]` survives the `[-\s]` deletion. -/
theorem upperAlnum_not_hyphen_space {c : Nat} (h : isUpperAlnum c = true) :
    (!(c = 45 || isPySpace c)) = true := by
  simp only [isUpperAlnum, Bool.or_eq_true, Bool.and_eq_true, decide_eq_true_eq] at h
  simp only [isPySpace, Bool.not_eq_eq_eq_not, Bool.not_true, Bool.or_eq_false_iff,
    decide_eq_false_iff_not]
  omega

/-- The underscore (95) is not kept by `[A-Z0-9]`. -/
theorem underscore_not_upperAlnum : isUpperAlnum 95 = false := by decide

theorem dropWhile_eq_self_of {p : Nat → Bool} {l : List Nat}
    (h : ∀ c ∈ l, p c = false) : l.dropWhile p = l := by
  cases l with
  | nil => rfl
  | cons a as => simp [List.dropWhile_cons, h a (List.mem_cons_self a as)]

theorem pyStrip_eq_self {l : List Nat} (h : ∀ c ∈ l, isPySpace c = false) :
    pyStrip l = l := by
  unfold pyStrip
  rw [dropWhile_eq_self_of h,
    dropWhile_eq_self_of (fun c hc => h c (List.mem_reverse.mp hc)),
    List.reverse_reverse]

theorem stripUpper_eq_self {l : List Nat} (h : ∀ c ∈ l, isUpperAlnum c = true) :
    stripUpper l = l := by
  unfold stripUpper
  rw [pyStrip_eq_self (fun c hc => upperAlnum_not_space (h c hc))]
  calc l.map toUpperChar = l.map id :=
        List.map_congr_left (fun c hc => upperAlnum_toUpper (h c hc))
    _ = l := List.map_id l

/-- A successful `clean_isbn` output consists of `[A-Z0-9]` characters and
has length 10 or 13. -/
theorem clean_isbn_sound {l r : List Nat} (h : clean_isbn (some l) = some r) :
    (∀ c ∈ r, isUpperAlnum c = true) ∧ (r.length = 10 ∨ r.length = 13) := by
  simp only [clean_isbn] at h
  split at h
  next hlen =>
    injection h with h2
    subst h2
    exact ⟨fun c hc => List.of_mem_filter hc, hlen⟩
  next => exact absurd h (by simp)

/-- A list of `[A-Z0-9]` characters of length 10 or 13 is a fixed point of
`clean_isbn`. -/
theorem clean_isbn_fix {r : List Nat} (hall : ∀ c ∈ r, isUpperAlnum c = true)
    (hlen : r.length = 10 ∨ r.length = 13) : clean_isbn (some r) = some r := by
  simp only [clean_isbn]
  rw [stripUpper_eq_self hall,
    List.filter_eq_self.mpr (fun c hc => upperAlnum_not_hyphen_space (hall c hc)),
    List.filter_eq_self.mpr hall, if_pos hlen]

/-- C9.  Identifier normalization is idempotent: whenever `clean_isbn` maps a
raw identifier to a valid result (a length-10 or length-13 list of uppercase
letters and digits), running `clean_isbn` on that result returns it
unchanged. -/
theorem clean_isbn_idempotent (l r : List Nat)
    (h : clean_isbn (some l) = some r) : clean_isbn (some r) = some r :=
  clean_isbn_fix (clean_isbn_sound h).1 (clean_isbn_sound h).2

/-- Witness for C9 at the concrete raw identifier `" 0-439-70818-4 "`. -/
theorem clean_isbn_idempotent_witness :
    clean_isbn (some (codes " 0-439-70818-4 ")) = some (codes "0439708184") ∧
    clean_isbn (some (codes "0439708184")) = some (codes "0439708184") :=
  ⟨by decide, clean_isbn_idempotent (codes " 0-439-70818-4 ")
    (codes "0439708184") (by decide)⟩

/-- C10.  Composite fallback keys and normalized identifiers are disjoint:
a composite key starts with `COMP_` (and so contains the underscore 95),
while a valid `clean_isbn` output consists only of uppercase letters and
digits; hence no composite key equals any normalized identifier. -/
theorem composite_key_disjoint_from_isbn (title authors : Option (List Nat))
    (k : List Nat) (hk : create_composite_key none title authors = some k)
    (s r : List Nat) (hr : clean_isbn (some s) = some r) :
    k.take 5 = codes "COMP_" ∧ 95 ∈ k ∧ k ≠ r := by
  simp only [create_composite_key] at hk
  split at hk
  next =>
    injection hk with hk2
    subst hk2
    refine ⟨?_, ?_, ?_⟩
    · rw [List.append_assoc, List.append_assoc,
        show 5 = (codes "COMP_").length from rfl, List.take_left]
    · simp [List.mem_append]
    · intro hkr
      have h95 : (95 : Nat) ∈ r := by
        rw [← hkr]; simp [List.mem_append]
      have := (clean_isbn_sound hr).1 95 h95
      rw [underscore_not_upperAlnum] at this
      exact Bool.false_ne_true this
  next => exact absurd hk (by simp)

/-- Witness for C10 at the concrete composite key
`COMP_HARRYPOTTER_JKROWLING` and normalized identifier `0439708184`. -/
theorem composite_key_disjoint_from_isbn_witness :
    create_composite_key none (some (codes "Harry Potter"))
        (some (codes "J.K. Rowling, Mary GrandPre"))
      = some (codes "COMP_HARRYPOTTER_JKROWLING") ∧
    clean_isbn (some (codes "0439708184")) = some (codes "0439708184") ∧
    ((codes "COMP_HARRYPOTTER_JKROWLING").take 5 = codes "COMP_" ∧
      95 ∈ codes "COMP_HARRYPOTTER_JKROWLING" ∧
      codes "COMP_HARRYPOTTER_JKROWLING" ≠ codes "0439708184") :=
  ⟨by decide, by decide,
    composite_key_disjoint_from_isbn (some (codes "Harry Potter"))
      (some (codes "J.K. Rowling, Mary GrandPre"))
      (codes "COMP_HARRYPOTTER_JKROWLING") (by decide)
      (codes "0439708184") (codes "0439708184") (by decide)⟩

/-- C5, counterexample.  A record whose title is non-empty raw text but
empty after stripping non-alphanumeric characters still receives a composite
key (`COMP__SMITH`), refuting the claim that such a record receives no
identity key and is dropped. -/
theorem composite_key_punct_title_cex :
    create_composite_key none (some (codes "!!!")) (some (codes "Smith"))
      = some (codes "COMP__SMITH") ∧
    (stripUpper (codes "!!!")).filter isUpperAlnum = [] := by decide

/-- C5, amended.  A record with no valid identifier receives no identity key
iff its whitespace-stripped uppercased title or its whitespace-stripped
uppercased author field is empty (or missing) — the emptiness test happens
before non-alphanumeric stripping; and the cleaning pass retains exactly the
records whose key is non-null. -/
theorem composite_key_none_iff (title authors : Option (List Nat)) :
    (create_composite_key none title authors = none ↔
      stripUpper (title.getD []) = [] ∨ stripUpper (authors.getD []) = []) ∧
    ∀ (ks : List (Option (List Nat))) (k : List Nat),
      k ∈ dropNullKeys ks ↔ some k ∈ ks := by
  constructor
  · simp only [create_composite_key]
    split
    next h => simp only [reduceCtorEq, false_iff]; push_neg; exact h
    next h =>
      simp only [true_iff]
      by_contra hc
      push_neg at hc
      exact h ⟨hc.1, hc.2⟩
  · intro ks k
    simp [dropNullKeys, List.mem_filterMap]

/-- C4, counterexample.  A catalog record whose rating fails numeric parsing
(coerced to null) is removed as a whole row by the range mask, refuting the
claim that such a record is retained with a null rating. -/
theorem null_rating_row_dropped_cex :
    filterByRating [⟨"COMP_SOMEBOOK_SMITH", none⟩] = [] ∧
    ratingMask none = false := by decide

/-- C4, amended.  The rating mask keeps a record iff its coerced rating is
non-null and within `[0,5]`: after the filter every record's rating is some
value in `[0,5]` (never null), and a record whose coerced rating is null is
dropped along with the out-of-range ones. -/
theorem rating_filter_amended (rows : List CatalogRow) (r : CatalogRow) :
    (r ∈ filterByRating rows → ∃ q, r.average_rating = some q ∧ 0 ≤ q ∧ q ≤ 5) ∧
    (r ∈ rows → r.average_rating = none → r ∉ filterByRating rows) := by
  constructor
  · intro hmem
    simp only [filterByRating] at hmem
    have hmask : ratingMask r.average_rating = true := (List.mem_filter.mp hmem).2
    cases hq : r.average_rating with
    | none => rw [hq] at hmask; exact absurd hmask (by decide)
    | some q =>
      rw [hq] at hmask
      simp only [ratingMask, Bool.and_eq_true, decide_eq_true_eq] at hmask
      exact ⟨q, rfl, hmask.1, hmask.2⟩
  · intro _ hnull hmem
    simp only [filterByRating] at hmem
    have hmask : ratingMask r.average_rating = true := (List.mem_filter.mp hmem).2
    rw [hnull] at hmask
    exact absurd hmask (by decide)

/-- Witness for C4 at a two-row input: the null-rated row is dropped and the
kept row's rating is in range. -/
theorem rating_filter_amended_witness :
    ((⟨"K1", some 4⟩ : CatalogRow) ∈
        filterByRating [⟨"K1", some 4⟩, ⟨"K2", none⟩] →
      ∃ q, (⟨"K1", some 4⟩ : CatalogRow).average_rating = some q ∧
        0 ≤ q ∧ q ≤ 5) ∧
    ((⟨"K2", none⟩ : CatalogRow) ∈ [⟨"K1", some 4⟩, ⟨"K2", none⟩] ∧
      (⟨"K2", none⟩ : CatalogRow) ∉
        filterByRating [⟨"K1", some 4⟩, ⟨"K2", none⟩]) :=
  ⟨(rating_filter_amended [⟨"K1", some 4⟩, ⟨"K2", none⟩] ⟨"K1", some 4⟩).1,
   by decide,
   (rating_filter_amended [⟨"K1", some 4⟩, ⟨"K2", none⟩] ⟨"K2", none⟩).2
     (by decide) (by decide)⟩

/-- C8, counterexample.  The canonical name `RANDOM HOUSE` of the publisher
synonym table does not occur in the flag keyword list, so the keyword list is
not a superset of the canonicalization keys. -/
theorem keywords_not_superset_cex :
    "RANDOM HOUSE" ∈ uk_publishers.map Prod.fst ∧
    "RANDOM HOUSE" ∉ uk_publisher_keywords := by decide

/-- C8, amended.  The flag keyword list shares exactly six of the seven
canonical names of the synonym table (all but `RANDOM HOUSE`), and adds
`CANONGATE` and `HACHETTE UK`, which are not canonicalization keys; neither
list contains the other. -/
theorem publisher_lists_relation :
    (uk_publishers.map Prod.fst).filter
        (fun n => decide (n ∈ uk_publisher_keywords)) =
      ["PENGUIN", "BLOOMSBURY", "HARPERCOLLINS", "MACMILLAN", "ORION",
        "FABER"] ∧
    "CANONGATE" ∈ uk_publisher_keywords ∧
    "CANONGATE" ∉ uk_publishers.map Prod.fst ∧
    "HACHETTE UK" ∈ uk_publisher_keywords ∧
    "HACHETTE UK" ∉ uk_publishers.map Prod.fst ∧
    "RANDOM HOUSE" ∈ uk_publishers.map Prod.fst ∧
    "RANDOM HOUSE" ∉ uk_publisher_keywords := by decide

/-- C2.  A cleaned catalog record appears in the joined output iff its
flagged-publisher boolean is true or the rating-aggregate side of its left
join is non-null; a record with flag false and no matching aggregate never
appears.  (Uniqueness of cleaned book keys — the post-dedup invariant — is a
hypothesis.) -/
theorem join_retention_iff (books : List BookRow) (aggs : List CommunityRow)
    (b : BookRow) (hb : b ∈ books)
    (hnd : (books.map (fun x => x.book_key)).Nodup) :
    (∃ row ∈ masterDataset books aggs, row.book_key = b.book_key) ↔
      (b.is_uk_publisher = true ∨ findAgg aggs b.isbn ≠ none) := by
  constructor
  · rintro ⟨row, hrow, hkey⟩
    simp only [masterDataset] at hrow
    obtain ⟨b', hb'f, hjb⟩ := List.mem_map.mp hrow
    have hb'books : b' ∈ books := List.mem_of_mem_filter hb'f
    have hret : retained aggs b' = true := (List.mem_filter.mp hb'f).2
    have hkey' : b'.book_key = b.book_key := by rw [← hjb] at hkey; exact hkey
    have hbb : b' = b := List.inj_on_of_nodup_map hnd hb'books hb hkey'
    subst hbb
    simp only [retained, Bool.or_eq_true, Option.isSome_iff_ne_none] at hret
    exact hret
  · intro h
    have hret : retained aggs b = true := by
      simp only [retained, Bool.or_eq_true, Option.isSome_iff_ne_none]
      exact h
    exact ⟨joinRow aggs b,
      List.mem_map_of_mem _ (List.mem_filter.mpr ⟨hb, hret⟩), rfl⟩

/-- Witness for C2 at a one-book catalog with a flagged publisher and an
empty aggregate table. -/
theorem join_retention_iff_witness :
    ((⟨"B1", some "0439708184", some 4, 478, true⟩ : BookRow) ∈
      [(⟨"B1", some "0439708184", some 4, 478, true⟩ : BookRow)]) ∧
    ([(⟨"B1", some "0439708184", some 4, 478, true⟩ : BookRow)].map
      (fun x => x.book_key)).Nodup ∧
    ((∃ row ∈ masterDataset
        [(⟨"B1", some "0439708184", some 4, 478, true⟩ : BookRow)] [],
        row.book_key
          = (⟨"B1", some "0439708184", some 4, 478, true⟩ : BookRow).book_key) ↔
      ((⟨"B1", some "0439708184", some 4, 478, true⟩ : BookRow).is_uk_publisher
          = true ∨
        findAgg []
          (⟨"B1", some "0439708184", some 4, 478, true⟩ : BookRow).isbn
          ≠ none)) :=
  ⟨by decide, by decide,
    join_retention_iff _ [] _ (by decide) (by decide)⟩

/-- C3.  Every joined row's category follows the fixed priority chain on the
rescaled aggregate mean and the catalog review count, and a null aggregate
side resolves to `Average`. -/
theorem book_category_priority (books : List BookRow)
    (aggs : List CommunityRow) (row : MasterRow)
    (hrow : row ∈ masterDataset books aggs) :
    (row.bc_rating = none → row.book_category = "Average") ∧
    ∀ v : ℚ, row.bc_rating = some v →
      row.book_category =
        if 4 ≤ v ∧ row.goodreads_review_count < 500 then "Hidden Gem"
        else if 4 ≤ v ∧ 500 ≤ row.goodreads_review_count then
          "Popular Favorite"
        else if v < 3 then "Underperformer"
        else "Average" := by
  simp only [masterDataset] at hrow
  obtain ⟨b, _, hjb⟩ := List.mem_map.mp hrow
  subst hjb
  constructor
  · intro hnone
    simp only [joinRow] at hnone ⊢
    cases hagg : findAgg aggs b.isbn with
    | none => simp [bookCategory, hagg]
    | some c => rw [hagg] at hnone; exact absurd hnone (by simp)
  · intro v hv
    simp only [joinRow] at hv ⊢
    cases hagg : findAgg aggs b.isbn with
    | none => rw [hagg] at hv; exact absurd hv (by simp)
    | some c =>
      rw [hagg] at hv
      simp only [Option.map_some'] at hv
      injection hv with hv
      subst hv
      simp [bookCategory, hagg]

/-- Witness for C3 at a one-book, one-aggregate input whose joined row is a
`Hidden Gem` (rescaled mean 4, review count 478). -/
theorem book_category_priority_witness :
    ((⟨"B2", none, 478, false, some 4, none, "Hidden Gem"⟩ : MasterRow) ∈
      masterDataset [⟨"B2", some "0316666343", none, 478, false⟩]
        [⟨"0316666343", 4, 12, none⟩]) ∧
    (((⟨"B2", none, 478, false, some 4, none, "Hidden Gem"⟩ : MasterRow).bc_rating
        = none →
      (⟨"B2", none, 478, false, some 4, none, "Hidden Gem"⟩ : MasterRow).book_category
        = "Average") ∧
    ∀ v : ℚ,
      (⟨"B2", none, 478, false, some 4, none, "Hidden Gem"⟩ : MasterRow).bc_rating
        = some v →
      (⟨"B2", none, 478, false, some 4, none, "Hidden Gem"⟩ : MasterRow).book_category =
        if 4 ≤ v ∧
            (⟨"B2", none, 478, false, some 4, none,
              "Hidden Gem"⟩ : MasterRow).goodreads_review_count < 500 then
          "Hidden Gem"
        else if 4 ≤ v ∧ 500 ≤
            (⟨"B2", none, 478, false, some 4, none,
              "Hidden Gem"⟩ : MasterRow).goodreads_review_count then
          "Popular Favorite"
        else if v < 3 then "Underperformer"
        else "Average") :=
  ⟨by decide,
    book_category_priority [⟨"B2", some "0316666343", none, 478, false⟩]
      [⟨"0316666343", 4, 12, none⟩] _ (by decide)⟩

/-- C1, counterexample.  At rating 4 and review count 9 the code's
engagement score is `4 * logb 10 10 = 4`, which differs from the natural-log
value `4 * ln 10` claimed by the spec, since `ln 10 > 1`. -/
theorem engagement_log_base_cex :
    engagementScore (some 4) 9 = some ((4 : ℝ) * Real.logb 10 10) ∧
    engagementScore (some 4) 9 ≠ engagementScoreSpecLn (some 4) 9 := by
  have hx : ((9 : ℤ) : ℝ) + 1 = 10 := by norm_num
  have hval : engagementScore (some 4) 9 = some ((4 : ℝ) * Real.logb 10 10) := by
    simp only [engagementScore, sqliteLog, hx]
    rw [if_pos (by norm_num : (0 : ℝ) < 10)]
    norm_num
  refine ⟨hval, ?_⟩
  rw [hval]
  simp only [engagementScoreSpecLn, Option.map_some', hx]
  intro h
  injection h with h
  rw [Real.logb_self_eq_one (by norm_num)] at h
  norm_num at h
  have hgt : 1 < Real.log 10 := by
    rw [Real.lt_log_iff_exp_lt (by norm_num)]
    calc Real.exp 1 < 2.7182818286 := Real.exp_one_lt_d9
      _ < 10 := by norm_num
  linarith

/-- C1, amended.  For every joined row (every retained catalog record with
the cleaned, non-negative review count), the engagement-score column equals
the catalog rating times the **base-10** logarithm of (review count + 1),
and it is null iff the catalog rating is null. -/
theorem engagement_score_amended (books : List BookRow)
    (aggs : List CommunityRow) (b : BookRow) (hb : b ∈ books)
    (hret : retained aggs b = true)
    (hcnt : 0 ≤ b.goodreads_review_count) :
    engagementScore b.goodreads_rating b.goodreads_review_count
        ∈ engagementColumn books aggs ∧
    (engagementScore b.goodreads_rating b.goodreads_review_count = none ↔
      b.goodreads_rating = none) ∧
    ∀ r : ℚ, b.goodreads_rating = some r →
      engagementScore b.goodreads_rating b.goodreads_review_count
        = some ((r : ℝ) *
            Real.logb 10 ((b.goodreads_review_count : ℝ) + 1)) := by
  have hpos : (0 : ℝ) < (b.goodreads_review_count : ℝ) + 1 := by
    have h0 : (0 : ℝ) ≤ (b.goodreads_review_count : ℝ) := by exact_mod_cast hcnt
    linarith
  have hlog : sqliteLog ((b.goodreads_review_count : ℝ) + 1)
      = some (Real.logb 10 ((b.goodreads_review_count : ℝ) + 1)) := by
    simp [sqliteLog, hpos]
  refine ⟨?_, ?_, ?_⟩
  · exact List.mem_map_of_mem _ (List.mem_filter.mpr ⟨hb, hret⟩)
  · cases hr : b.goodreads_rating with
    | none => simp [engagementScore, hlog]
    | some r => simp [engagementScore, hlog]
  · intro r hr
    rw [hr]
    simp [engagementScore, hlog]

/-- Witness for C1 at a flagged one-book catalog with rating 4 and review
count 9. -/
theorem engagement_score_amended_witness :
    ((⟨"B1", some "0439708184", some 4, 9, true⟩ : BookRow) ∈
      [(⟨"B1", some "0439708184", some 4, 9, true⟩ : BookRow)]) ∧
    retained [] (⟨"B1", some "0439708184", some 4, 9, true⟩ : BookRow)
      = true ∧
    (0 : ℤ) ≤ 9 ∧
    (engagementScore (some 4) 9 ∈
        engagementColumn
          [(⟨"B1", some "0439708184", some 4, 9, true⟩ : BookRow)] [] ∧
      (engagementScore (some 4) 9 = none ↔
        (some (4 : ℚ) : Option ℚ) = none) ∧
      ∀ r : ℚ, (some (4 : ℚ) : Option ℚ) = some r →
        engagementScore (some 4) 9
          = some ((r : ℝ) * Real.logb 10 (((9 : ℤ) : ℝ) + 1))) :=
  ⟨by decide, by decide, by decide,
    engagement_score_amended
      [⟨"B1", some "0439708184", some 4, 9, true⟩] []
      ⟨"B1", some "0439708184", some 4, 9, true⟩
      (by decide) (by decide) (by decide)⟩

/-!
## List lemmas for the grouping argument (C6)
-/

theorem map_filter_comm {α β : Type} (f : α → β) (p : α → Bool) (q : β → Bool)
    (h : ∀ a, q (f a) = p a) (l : List α) :
    (l.filter p).map f = (l.map f).filter q := by
  induction l with
  | nil => rfl
  | cons a as ih =>
    cases hp : p a
    · simp [List.filter_cons, hp, h, ih]
    · simp [List.filter_cons, hp, h, ih]

theorem filterMap_filter_sound {α β : Type} (g : α → Option β) (p : α → Bool)
    (h : ∀ a, p a = false → g a = none) (l : List α) :
    (l.filter p).filterMap g = l.filterMap g := by
  induction l with
  | nil => rfl
  | cons a as ih =>
    cases hp : p a
    · simp [List.filter_cons, hp, List.filterMap_cons, h a hp, ih]
    · simp only [List.filter_cons, hp, if_true, List.filterMap_cons, ih]

theorem filter_filter_of_imp {α : Type} (p q : α → Bool)
    (h : ∀ a, p a = true → q a = true) (l : List α) :
    (l.filter q).filter p = l.filter p := by
  induction l with
  | nil => rfl
  | cons a as ih =>
    cases hq : q a
    · have hp : p a = false := by
        cases hpa : p a
        · rfl
        · rw [h a hpa] at hq; exact absurd hq (by simp)
      simp [List.filter_cons, hq, hp, ih]
    · simp [List.filter_cons, hq, ih]

/-- Restricting the rating events to those with a present actor commutes
with the left merge. -/
theorem rwu_filtered (ratings : List RatingRow) (users : List UserRow) :
    ratingsWithUsers
        (ratings.filter (fun r => (lookupUser users r.userId).isSome)) users
      = (ratingsWithUsers ratings users).filter (fun q => q.2.isSome) := by
  unfold ratingsWithUsers
  exact map_filter_comm (fun r => (r, lookupUser users r.userId))
    (fun r => (lookupUser users r.userId).isSome) (fun q => q.2.isSome)
    (fun _ => rfl) ratings

/-- Rows with a null cohort contribute no group key. -/
theorem demoGroupKeys_filtered (ps : List (RatingRow × Option String)) :
    demoGroupKeys (ps.filter (fun q => q.2.isSome)) = demoGroupKeys ps := by
  unfold demoGroupKeys
  rw [filterMap_filter_sound (fun p => p.2.map (fun g => (p.1.isbn, g)))
    (fun q => q.2.isSome)
    (fun a ha => by
      cases h2 : a.2 with
      | none => simp [h2]
      | some x => simp [h2] at ha) ps]

/-- Rows with a null cohort never match a (non-null) group key. -/
theorem demoGroup_filtered (ps : List (RatingRow × Option String))
    (k : String × String) :
    demoGroup (ps.filter (fun q => q.2.isSome)) k = demoGroup ps k := by
  unfold demoGroup
  exact filter_filter_of_imp _ _
    (fun a ha => by
      simp only [Bool.and_eq_true, decide_eq_true_eq] at ha
      rw [ha.2]; rfl) ps

/-- C6, counterexample.  Five rating events whose actor is absent all
receive a null cohort from the left join, meet the minimum support
threshold 5, and yet produce no cohort aggregate at all: pandas'
`groupby` drops null group keys, so the null cohort does not participate as
its own group. -/
theorem null_cohort_dropped_cex :
    (ratingsWithUsers orphanEvents []).all (fun p => p.2 = none) = true ∧
    (ratingsWithUsers orphanEvents []).length = 5 ∧
    demographic_insights orphanEvents [] = [] := by decide

/-- C6, amended.  A rating event whose actor is absent receives a null
cohort label via the left join, and such events are **excluded** from the
cohort aggregates: the output equals the aggregation of only those events
whose actor is present. -/
theorem demographic_null_cohort_amended (ratings : List RatingRow)
    (users : List UserRow) :
    (∀ r ∈ ratings, lookupUser users r.userId = none →
      (r, (none : Option String)) ∈ ratingsWithUsers ratings users) ∧
    demographic_insights ratings users =
      demographic_insights
        (ratings.filter (fun r => (lookupUser users r.userId).isSome))
        users := by
  constructor
  · intro r hr hnone
    have hmem : (r, lookupUser users r.userId) ∈ ratingsWithUsers ratings users :=
      List.mem_map_of_mem _ hr
    rwa [hnone] at hmem
  · simp only [demographic_insights]
    rw [rwu_filtered, demoGroupKeys_filtered]
    simp only [demoGroup_filtered]

/-- Witness for C6 at the five orphan events against an empty users table. -/
theorem demographic_null_cohort_amended_witness :
    ((⟨"0316666343", 99, 8⟩ : RatingRow) ∈ orphanEvents) ∧
    lookupUser [] 99 = none ∧
    ((⟨"0316666343", 99, 8⟩ : RatingRow), (none : Option String)) ∈
      ratingsWithUsers orphanEvents [] ∧
    demographic_insights orphanEvents [] =
      demographic_insights
        (orphanEvents.filter (fun r => (lookupUser [] r.userId).isSome)) [] :=
  ⟨by decide, by decide,
    (demographic_null_cohort_amended orphanEvents []).1 _ (by decide)
      (by decide),
    (demographic_null_cohort_amended orphanEvents []).2⟩

/-- C7, counterexample.  With the rating-aggregate input missing, the join
stage does not halt: it emits a joined output (here one flagged-publisher
row with null aggregate fields), refuting "halts without producing partial
output". -/
theorem missing_aggregates_cex :
    joinStage (some [⟨"B7", some "0316666343", some 4, 9, true⟩]) none
      = Except.ok [⟨"B7", some 4, 9, true, none, none, "Average"⟩] ∧
    joinStage (some [⟨"B7", some "0316666343", some 4, 9, true⟩]) none
      ≠ Except.ok [] := by decide

/-- C7, amended.  A missing cleaned-catalog input is fatal to the join stage
(error, no output), but a missing rating-aggregate input is only warned
about: the join proceeds against an empty aggregate table, emitting exactly
the flagged-publisher rows, each with null aggregate fields. -/
theorem join_stage_missing_source_amended (books : List BookRow)
    (aggs : Option (List CommunityRow)) :
    joinStage none aggs
      = Except.error "goodreads_cleaned.csv not found. Run script 02 first." ∧
    joinStage (some books) none = Except.ok (masterDataset books []) ∧
    ∀ row ∈ masterDataset books [],
      row.is_uk_publisher = true ∧ row.bc_rating = none := by
  refine ⟨rfl, rfl, ?_⟩
  intro row hrow
  simp only [masterDataset] at hrow
  obtain ⟨b, hbf, hjb⟩ := List.mem_map.mp hrow
  have hret : retained [] b = true := (List.mem_filter.mp hbf).2
  have hfind : findAgg [] b.isbn = none := by cases b.isbn <;> rfl
  subst hjb
  constructor
  · simp only [retained, hfind, Option.isSome_none, Bool.or_false] at hret
    exact hret
  · simp [joinRow, hfind]

/-- Witness for C7 at a one-book catalog (flagged) and explicit inputs. -/
theorem join_stage_missing_source_amended_witness :
    joinStage none (some [])
      = Except.error "goodreads_cleaned.csv not found. Run script 02 first." ∧
    joinStage (some [⟨"B8", some "0316666343", some 4, 9, true⟩]) none
      = Except.ok
          (masterDataset [⟨"B8", some "0316666343", some 4, 9, true⟩] []) ∧
    ((⟨"B8", some 4, 9, true, none, none, "Average"⟩ : MasterRow) ∈
      masterDataset [⟨"B8", some "0316666343", some 4, 9, true⟩] []) ∧
    (⟨"B8", some 4, 9, true, none, none, "Average"⟩ : MasterRow).is_uk_publisher
      = true ∧
    (⟨"B8", some 4, 9, true, none, none, "Average"⟩ : MasterRow).bc_rating
      = none :=
  ⟨(join_stage_missing_source_amended
      [⟨"B8", some "0316666343", some 4, 9, true⟩] (some [])).1,
   (join_stage_missing_source_amended
      [⟨"B8", some "0316666343", some 4, 9, true⟩] (some [])).2.1,
   by decide,
   (join_stage_missing_source_amended
      [⟨"B8", some "0316666343", some 4, 9, true⟩] (some [])).2.2 _
     (by decide)⟩
